import Mathlib

/-!
Shallow embedding of the conversational core of the `agen_travel_fastapi`
repository (intent classification, entity extraction, session-state merge,
temporal resolution and budget interpretation), together with theorems
settling the frozen claims about it.

Strings are modelled as `List Char`.  Python regular-expression fragments
used by the source are embedded as executable scanning functions over
`List Char` that reproduce `re.search` / `re.findall` semantics (leftmost
match, greedy quantifiers with the backtracking behaviour worked out for
the concrete patterns of the source).  Character classes (`\w`, `\d`,
`\s`, `[A-Z]`, `[a-zA-Z]`) are modelled by their ASCII meaning, matching
the source inputs in scope.
-/

abbrev Str := List Char

/-- ASCII decimal digit, the `\d` class restricted to ASCII. -/
def isDigitChar (c : Char) : Bool := 48 ≤ c.toNat && c.toNat ≤ 57

/-- ASCII uppercase letter, the regex class `[A-Z]`. -/
def isUpperChar (c : Char) : Bool := 65 ≤ c.toNat && c.toNat ≤ 90

/-- ASCII lowercase letter, the regex class `[a-z]`. -/
def isLowerChar (c : Char) : Bool := 97 ≤ c.toNat && c.toNat ≤ 122

/-- ASCII letter, the regex class `[a-zA-Z]`. -/
def isLetterChar (c : Char) : Bool := isUpperChar c || isLowerChar c

/-- ASCII whitespace, the `\s` class restricted to ASCII:
space, tab, newline, carriage return, vertical tab, form feed. -/
def isSpaceChar (c : Char) : Bool :=
  c.toNat = 32 || c.toNat = 9 || c.toNat = 10 || c.toNat = 13 || c.toNat = 11 || c.toNat = 12

/-- The `\w` class restricted to ASCII: letters, digits and underscore. -/
def isWordChar (c : Char) : Bool := isLetterChar c || isDigitChar c || c.toNat = 95

/-- Python `str.lower()`, ASCII behaviour. -/
def pyLower (s : Str) : Str := s.map Char.toLower

/-- Python `str.upper()`, ASCII behaviour. -/
def pyUpper (s : Str) : Str := s.map Char.toUpper

/-- Python substring containment, `needle in hay`. -/
def containsStr : Str → Str → Bool
  | n, [] => n.isEmpty
  | n, h :: t => List.isPrefixOf n (h :: t) || containsStr n t

/-- A `\b` word boundary holds before the scan position when the previous
character (if any) is not a word character. -/
def boundaryOk : Option Char → Bool
  | none => true
  | some c => !isWordChar c

/-- A `\b` word boundary holds after a match ending in a word character when
the following text is empty or starts with a non-word character. -/
def afterOk : Str → Bool
  | [] => true
  | c :: _ => !isWordChar c

/-- One segment of a regex of the shape `lit(.*lit)*`: an alternation of
literal words, optionally surrounded by `\b` anchors. -/
structure Seg where
  alts : List Str
  bdry : Bool

/-- All ways a segment can match starting anywhere in `s` (scanned left to
right with `prev` the character before the scan position): for each
occurrence of an alternative, the pair of the last matched character and the
remaining suffix. -/
def segEnds (alts : List Str) (bdry : Bool) : Option Char → Str → List (Option Char × Str)
  | _, [] => []
  | prev, c :: rest =>
    (alts.filterMap fun a =>
      if List.isPrefixOf a (c :: rest) then
        let suf := (c :: rest).drop a.length
        if !bdry || (boundaryOk prev && afterOk suf) then some (a.getLast?, suf)
        else none
      else none)
    ++ segEnds alts bdry (some c) rest

/-- `re.search` for a pattern `seg₁.*seg₂.*…` within one line: each segment
matches somewhere after the previous one, the gap matched by `.*`. -/
def matchSegs : List Seg → Option Char → Str → Bool
  | [], _, _ => true
  | seg :: rest, prev, s =>
    (segEnds seg.alts seg.bdry prev s).any fun pr => matchSegs rest pr.1 pr.2

/-- Split on the newline character; `.*` in Python does not match `\n`, so a
multi-segment pattern must match within a single line. -/
def splitLines : Str → List Str
  | [] => [[]]
  | c :: t =>
    if c.toNat = 10 then [] :: splitLines t
    else
      match splitLines t with
      | l :: ls => (c :: l) :: ls
      | [] => [[c]]

/-- `re.search(pattern, s)` as a Boolean, for patterns of shape
`lit(.*lit)*` with optional `\b` anchors. -/
def reSearch (p : List Seg) (s : Str) : Bool :=
  (splitLines s).any fun line => matchSegs p none line

/-- Case-insensitive whole-word search `re.search(rf"\b{w}\b", s, re.I)`
for a literal `w` (given lowercase). -/
def hasWordCI (w : Str) (s : Str) : Bool :=
  matchSegs [⟨[w], true⟩] none (pyLower s)

/-- Case-insensitive search `re.search(rf"\b{w}s?\b", s, re.I)`:
the word optionally followed by a plural `s`. -/
def hasWordSCI (w : Str) (s : Str) : Bool :=
  matchSegs [⟨[w, w ++ ['s']], true⟩] none (pyLower s)

/-! ## Query classification (`ConversationManager.classify_query`) -/

/-- The intent labels of `QueryType` in `core/conversation.py`. -/
inductive QueryType where
  | DESTINATION | PACKING | ATTRACTIONS | ACCOMMODATION | WEATHER
  | BEST_TIME | BUDGET | SAFETY | VISA | ITINERARY | GENERAL
deriving DecidableEq

/-- The composite itinerary check of `classify_query`: three families of
plain-substring cues must all be present in the lowered text. -/
def itineraryCond (t : Str) : Bool :=
  ([("staying for").data, ("i am staying").data, ("for  ").data].any fun k => containsStr k t)
  && ([("in ").data, ("from now").data, ("days").data, ("weeks").data].any fun k => containsStr k t)
  && ([("hotel").data, ("stay at a").data].any fun k => containsStr k t)

/-- The weather keyword check of `classify_query` (plain substrings). -/
def weatherCond (t : Str) : Bool :=
  containsStr (("weather").data) t || containsStr (("climate").data) t
  || containsStr (("temperature").data) t || containsStr (("season").data) t

/-- The visa keyword check of `classify_query` (plain substrings). -/
def visaCond (t : Str) : Bool :=
  [("visa").data, ("e-visa").data, ("evisa").data, ("visa on arrival").data, ("voa").data,
   ("entry requirement").data, ("entry requirements").data, ("passport requirement").data,
   ("immigration").data, ("border").data, ("permission to stay").data].any
    fun k => containsStr k t

/-- The `hotel_patterns` list of `classify_query`, embedded as segments. -/
def hotelPatterns : List (List Seg) :=
  [[⟨[("hotel").data, ("hotels").data], true⟩],
   [⟨[("hostel").data, ("hostels").data], true⟩],
   [⟨[("guesthouse").data, ("guesthouses").data], true⟩],
   [⟨[("accommodation").data, ("lodging").data], true⟩],
   [⟨[("where to stay").data], true⟩],
   [⟨[("place to sleep").data, ("place to stay").data], true⟩],
   [⟨[("inn").data], true⟩],
   [⟨[("motel").data, ("motels").data], true⟩],
   [⟨[("bnb").data], true⟩],
   [⟨[("bed and breakfast").data], true⟩],
   [⟨[("boutique hotel").data], true⟩]]

/-- Accommodation pattern check: some hotel pattern matches. -/
def hotelCond (t : Str) : Bool := hotelPatterns.any fun p => reSearch p t

/-- The `destination_patterns` list of `classify_query`. -/
def destinationPatterns : List (List Seg) :=
  [[⟨[("where").data], false⟩, ⟨[("should").data, ("to").data], false⟩,
    ⟨[("go").data, ("travel").data], false⟩],
   [⟨[("recommend").data], false⟩, ⟨[("destination").data], false⟩],
   [⟨[("place").data], false⟩, ⟨[("visit").data], false⟩],
   [⟨[("vacation").data], false⟩, ⟨[("ideas").data], false⟩],
   [⟨[("trip").data], false⟩, ⟨[("suggestions").data], false⟩]]

/-- Destination-recommendation pattern check. -/
def destCond (t : Str) : Bool := destinationPatterns.any fun p => reSearch p t

/-- The `packing_patterns` list of `classify_query`. -/
def packingPatterns : List (List Seg) :=
  [[⟨[("pack").data], true⟩, ⟨[("what").data], true⟩],
   [⟨[("what").data], true⟩, ⟨[("pack").data], true⟩],
   [⟨[("packing list").data], true⟩],
   [⟨[("bring").data], true⟩, ⟨[("trip").data], true⟩],
   [⟨[("what").data], true⟩, ⟨[("wear").data], true⟩],
   [⟨[("essentials").data], true⟩, ⟨[("bring").data], true⟩]]

/-- Packing pattern check. -/
def packingCond (t : Str) : Bool := packingPatterns.any fun p => reSearch p t

/-- The `attractions_patterns` list of `classify_query`. -/
def attractionsPatterns : List (List Seg) :=
  [[⟨[("things").data], true⟩, ⟨[("do").data], true⟩],
   [⟨[("attraction").data, ("attractions").data], true⟩],
   [⟨[("sightseeing").data], true⟩],
   [⟨[("places").data], true⟩, ⟨[("see").data], true⟩],
   [⟨[("activities").data], true⟩],
   [⟨[("what").data], true⟩, ⟨[("do").data], true⟩, ⟨[("in").data], true⟩]]

/-- Attractions pattern check. -/
def attractionsCond (t : Str) : Bool := attractionsPatterns.any fun p => reSearch p t

/-- The budget keyword check of `classify_query` (plain substrings). -/
def budgetCond (t : Str) : Bool :=
  [("budget").data, ("how much").data, ("cost").data, ("spend").data,
   ("price per day").data, ("per day").data, ("per week").data].any
    fun k => containsStr k t

/-- The best-time keyword check of `classify_query` (plain substrings). -/
def bestTimeCond (t : Str) : Bool :=
  [("best time").data, ("when to visit").data, ("season to go").data,
   ("surf").data, ("surfing").data, ("waves").data, ("swell").data].any
    fun k => containsStr k t

/-- The safety keyword check of `classify_query` (plain substrings). -/
def safetyCond (t : Str) : Bool :=
  [("safety").data, ("safe to travel").data, ("is it safe").data, ("solo travel").data,
   ("solo female").data, ("women safety").data, ("harassment").data, ("scam").data,
   ("pickpocket").data, ("crime").data, ("emergency").data].any
    fun k => containsStr k t

/-- `ConversationManager.classify_query`: lower the input, then test the
intent categories in the exact order of the source, returning the first hit,
with `GENERAL` as the fallback. -/
def classify_query (input : Str) : QueryType :=
  let text := pyLower input
  if itineraryCond text then QueryType.ITINERARY
  else if weatherCond text then QueryType.WEATHER
  else if visaCond text then QueryType.VISA
  else if hotelCond text then QueryType.ACCOMMODATION
  else if destCond text then QueryType.DESTINATION
  else if packingCond text then QueryType.PACKING
  else if attractionsCond text then QueryType.ATTRACTIONS
  else if budgetCond text then QueryType.BUDGET
  else if bestTimeCond text then QueryType.BEST_TIME
  else if safetyCond text then QueryType.SAFETY
  else QueryType.GENERAL

/-! ## Entity extraction helpers (`ConversationManager.extract_entities`) -/

/-- The `_QUESTION_WORDS` set of `core/conversation.py`. -/
def questionWords : List Str :=
  [("which").data, ("where").data, ("what").data, ("when").data,
   ("how").data, ("who").data, ("whom").data, ("whose").data]

/-- Python `t.strip(",.?")`: remove the characters `,` `.` `?` from both
ends of the token. -/
def stripPunct (t : Str) : Str :=
  let p := fun c => c = ',' || c = '.' || c = '?'
  ((t.dropWhile p).reverse.dropWhile p).reverse

/-- `re.split(r"\s+", text)` followed by dropping empty pieces (the source
filters falsy tokens), i.e. the whitespace-separated tokens. -/
def splitWs (s : Str) : List Str :=
  (List.splitOnP isSpaceChar s).filter fun t => !t.isEmpty

/-- `ConversationManager._strip_leading_question_words`: tokenize, drop
leading tokens whose lowered, punctuation-stripped form is a question word,
and rejoin with single spaces. -/
def stripLeadingQuestionWords (s : Str) : Str :=
  List.intercalate ([' '])
    ((splitWs s).dropWhile fun t => questionWords.contains (stripPunct (pyLower t)))

/-- Digits of a matched `\d+` group to the number `int(...)` parses. -/
def digitsToNat (ds : Str) : Nat := ds.foldl (fun n c => n * 10 + (c.toNat - 48)) 0

/-- Match of `(days?|weeks?|months?)` (case-insensitive, no trailing `\b`)
at the head of `r`: the alternation prefers the plural via the greedy `s?`.
Returns the length of the matched unit. -/
def durUnitLen (r : Str) : Option Nat :=
  let l := pyLower (r.take 6)
  if List.isPrefixOf (("days").data) l then some 4
  else if List.isPrefixOf (("day").data) l then some 3
  else if List.isPrefixOf (("weeks").data) l then some 5
  else if List.isPrefixOf (("week").data) l then some 4
  else if List.isPrefixOf (("months").data) l then some 6
  else if List.isPrefixOf (("month").data) l then some 5
  else none

/-- `re.search(r"(\d+)[\s-]*(days?|weeks?|months?)", cleaned, re.I)`:
leftmost maximal digit run, a run of whitespace or hyphens, then a unit
word; returns the matched span (group 0) with original casing. -/
def durationSearch : Str → Option Str
  | [] => none
  | c :: rest =>
    if isDigitChar c then
      let ds := (c :: rest).takeWhile isDigitChar
      let r1 := (c :: rest).dropWhile isDigitChar
      let sp := r1.takeWhile fun x => isSpaceChar x || x = '-'
      let r2 := r1.dropWhile fun x => isSpaceChar x || x = '-'
      match durUnitLen r2 with
      | some n => some (ds ++ sp ++ r2.take n)
      | none => durationSearch rest
    else durationSearch rest

/-- The `_WORD_DURATION` table of `core/conversation.py`, in insertion
order (the en dash of the source values is kept). -/
def wordDurationTable : List (Str × Str) :=
  [(("weekend").data, ("2 days (weekend)").data),
   (("couple of days").data, ("2–3 days").data),
   (("few days").data, ("3–4 days").data),
   (("fortnight").data, ("2 weeks").data)]

/-- `m.group(0).replace("-", " ")` for the duration span. -/
def replaceHyphens (s : Str) : Str := s.map fun c => if c = '-' then ' ' else c

/-- The duration step of `extract_entities`: the numeric pattern first
(hyphens replaced by spaces in the stored value), else the first matching
word-duration phrase. -/
def extractDuration (cleaned : Str) : Option Str :=
  match durationSearch cleaned with
  | some g => some (replaceHyphens g)
  | none =>
    wordDurationTable.findSome? fun pr =>
      if hasWordCI pr.1 cleaned then some pr.2 else none

/-- Case-insensitive literal prefix: if the head of `s` lowers to `pat`
(given lowercase), return the consumed original-case span and the rest. -/
def ciPrefixSplit (pat : Str) (s : Str) : Option (Str × Str) :=
  if pyLower (s.take pat.length) = pat then some (s.take pat.length, s.drop pat.length)
  else none

/-- First alternative of a regex alternation that matches at the head of
`s`, tried in the written order, case-insensitively. -/
def firstCI (pats : List Str) (s : Str) : Option (Str × Str) :=
  pats.findSome? fun p => ciPrefixSplit p s

/-- Split leading whitespace (`\s*`, greedy). -/
def spacesSplit (s : Str) : Str × Str := (s.takeWhile isSpaceChar, s.dropWhile isSpaceChar)

/-- The greedy `(?:,\d{3})*` of the budget pattern: consume groups of a
comma followed by exactly three digits.  Structural recursion on a fuel
that bounds the length of the text; every step consumes at least four
characters, so `s.length` fuel is always enough. -/
def commaGroupsAux : Nat → Str → Str × Str
  | 0, s => ([], s)
  | fuel + 1, s =>
    match s with
    | [] => ([], [])
    | c :: r =>
      if c = ',' && 3 ≤ (r.takeWhile isDigitChar).length then
        let pr := commaGroupsAux fuel (r.drop 3)
        (c :: (r.take 3 ++ pr.1), pr.2)
      else ([], c :: r)

/-- The greedy `(?:,\d{3})*` at the head of the text. -/
def commaGroups (s : Str) : Str × Str := commaGroupsAux s.length s

/-- The mandatory numeric group `(\d+(?:,\d{3})*|\d+)` of the budget
pattern at the head of `s`: a nonempty maximal digit run, then greedy
comma-triple groups. -/
def numPart (s : Str) : Option (Str × Str) :=
  let ds := s.takeWhile isDigitChar
  if ds.isEmpty then none
  else
    let pr := commaGroups (s.drop ds.length)
    some (ds ++ pr.1, pr.2)

/-- Attempt of the `extract_entities` budget regex at one position:
`(?:(?:budget|up to|around)\s*)?(\$|€|£)?\s*(\d+(?:,\d{3})*|\d+)`
`(?:\s*(k|thousand))?\s*(usd|dollars|eur|euros|gbp|pounds|per night|/night|a night)?`
(case-insensitive).  All parts except the number are optional; a failed
optional part consumes nothing.  Returns group 0. -/
def budgetAt (s : Str) : Option Str :=
  let lead :=
    match firstCI [("budget").data, ("up to").data, ("around").data] s with
    | some (c, r) =>
      let pr := spacesSplit r
      (c ++ pr.1, pr.2)
    | none => ([], s)
  let sym :=
    match lead.2 with
    | c :: r => if c = '$' || c = '€' || c = '£' then (([c] : Str), r) else (([] : Str), lead.2)
    | [] => (([] : Str), lead.2)
  let sp2 := spacesSplit sym.2
  match numPart sp2.2 with
  | none => none
  | some (num, s4) =>
    let kg :=
      let pr := spacesSplit s4
      match firstCI [("k").data, ("thousand").data] pr.2 with
      | some (c, r2) => (pr.1 ++ c, r2)
      | none => (([] : Str), s4)
    let sp3 := spacesSplit kg.2
    let cur :=
      match firstCI [("usd").data, ("dollars").data, ("eur").data, ("euros").data,
                     ("gbp").data, ("pounds").data, ("per night").data, ("/night").data,
                     ("a night").data] sp3.2 with
      | some (c, _) => c
      | none => ([] : Str)
    some (lead.1 ++ sym.1 ++ sp2.1 ++ num ++ kg.1 ++ sp3.1 ++ cur)

/-- Leftmost match of the budget regex: scan positions left to right. -/
def budgetSearch : Str → Option Str
  | [] => none
  | c :: t =>
    match budgetAt (c :: t) with
    | some g => some g
    | none => budgetSearch t

/-- The interests vocabulary of `extract_entities`, in source order. -/
def interestsVocab : List Str :=
  [("beach").data, ("mountain").data, ("city").data, ("culture").data,
   ("adventure").data, ("food").data, ("shopping").data, ("nature").data,
   ("museum").data, ("nightlife").data, ("family").data, ("romantic").data,
   ("dinner").data, ("formal").data, ("hiking").data]

/-- The accommodation-type vocabulary of `extract_entities`, in source
order. -/
def accTypes : List Str :=
  [("hotel").data, ("hostel").data, ("apartment").data, ("boutique").data,
   ("guesthouse").data, ("bnb").data, ("motel").data, ("resort").data]

/-- The proper-noun unit `[A-Z][a-zA-Z]{2,}`: an uppercase letter followed
by a maximal run of at least two further letters. -/
def capWord? (s : Str) : Option (Str × Str) :=
  match s with
  | [] => none
  | c :: r =>
    if isUpperChar c then
      let run := r.takeWhile isLetterChar
      if 2 ≤ run.length then some (c :: run, r.drop run.length) else none
    else none

theorem capWord_ne_nil {s w rest : Str} (h : capWord? s = some (w, rest)) :
    w ≠ [] := by
  match s with
  | [] => simp [capWord?] at h
  | c :: r =>
    simp only [capWord?] at h
    split at h
    · split at h
      · simp only [Option.some.injEq, Prod.mk.injEq] at h
        obtain ⟨h1, _⟩ := h
        subst h1
        simp
      · simp at h
    · simp at h

/-- The greedy continuation `(?:[\s\-][A-Z][a-zA-Z]{2,})*`: a list of
extensions, each a separator (whitespace or hyphen) followed by a
capitalized word, with the unconsumed rest.  Structural recursion on a
fuel bounding the length of the text; every extension consumes at least
four characters, so `s.length` fuel is always enough. -/
def extListAux : Nat → Str → List Str × Str
  | 0, s => ([], s)
  | fuel + 1, s =>
    match s with
    | [] => ([], [])
    | c :: r =>
      if isSpaceChar c || c = '-' then
        match capWord? r with
        | some (w, rest) =>
          let pr := extListAux fuel rest
          ((c :: w) :: pr.1, pr.2)
        | none => ([], c :: r)
      else ([], c :: r)

/-- The greedy capitalized-phrase continuation at the head of the text. -/
def extList (s : Str) : List Str × Str := extListAux s.length s

/-- One leftmost-anchored match of the `_PROPER_NOUN` pattern
`\b([A-Z][a-zA-Z]{2,}(?:[\s\-][A-Z][a-zA-Z]{2,})*)\b` at the current
position (the leading `\b` is checked by the caller): the greedy chain of
capitalized words; if the trailing `\b` fails after the last extension, the
regex engine drops exactly that extension (the boundary after the previous
one is a separator, hence a non-word character), and if it fails on the
base word alone the position fails.  Returns the capture and the rest of
the text after the match. -/
def pnChain (s : Str) : Option (Str × Str) :=
  match capWord? s with
  | none => none
  | some (w0, r0) =>
    let pr := extList r0
    if afterOk pr.2 then some (w0 ++ pr.1.flatten, pr.2)
    else
      match pr.1.getLast? with
      | none => none
      | some le => some (w0 ++ pr.1.dropLast.flatten, le ++ pr.2)

/-- `re.findall(_PROPER_NOUN, s)`: scan left to right, collect
non-overlapping leftmost matches, resuming after each match.  The fuel is
the length of the text; every step consumes at least one character, so
`s.length` fuel is always enough. -/
def pnFindallAux : Nat → Option Char → Str → List Str
  | 0, _, _ => []
  | _ + 1, _, [] => []
  | fuel + 1, prev, c :: t =>
    if boundaryOk prev then
      match pnChain (c :: t) with
      | some (cap, rest) => cap :: pnFindallAux fuel cap.getLast? rest
      | none => pnFindallAux fuel (some c) t
    else pnFindallAux fuel (some c) t

/-- All `_PROPER_NOUN` captures in the text, in order. -/
def pnFindall (s : Str) : List Str := pnFindallAux s.length none s

/-- Attempt of the `_CITY_HINT` pattern
`(?:\bin|\bto|\bfor|\bat)\s+([A-Z][a-zA-Z]{2,}(?:[\s\-][A-Z][a-zA-Z]{2,})*)`
at one position (case-sensitive, no trailing boundary): a preposition at a
word boundary, mandatory whitespace, then a greedy capitalized phrase.
Returns group 1. -/
def cityHintAt (prev : Option Char) (s : Str) : Option Str :=
  match [("in").data, ("to").data, ("for").data, ("at").data].findSome?
      (fun k => if boundaryOk prev && List.isPrefixOf k s then some k else none) with
  | none => none
  | some k =>
    let r := s.drop k.length
    if (r.takeWhile isSpaceChar).isEmpty then none
    else
      match capWord? (r.dropWhile isSpaceChar) with
      | none => none
      | some (w, rest) => some (w ++ (extList rest).1.flatten)

/-- Leftmost `_CITY_HINT` match: scan left to right with the previous
character tracked for the word boundary. -/
def cityHintSearch : Option Char → Str → Option Str
  | _, [] => none
  | prev, c :: t =>
    match cityHintAt prev (c :: t) with
    | some g => some g
    | none => cityHintSearch (some c) t

/-- The citizenship unit `[A-Z][a-zA-Z]+` (case-sensitive): an uppercase
letter followed by a maximal run of at least one further letter. -/
def citWord? (s : Str) : Option (Str × Str) :=
  match s with
  | [] => none
  | c :: r =>
    if isUpperChar c then
      let run := r.takeWhile isLetterChar
      if 1 ≤ run.length then some (c :: run, r.drop run.length) else none
    else none

/-- `[A-Z][a-zA-Z]+` under `re.I`: any letter followed by at least one
further letter (maximal run). -/
def letterWord? (s : Str) : Option (Str × Str) :=
  match s with
  | [] => none
  | c :: r =>
    if isLetterChar c then
      let run := r.takeWhile isLetterChar
      if 1 ≤ run.length then some (c :: run, r.drop run.length) else none
    else none

/-- Attempt of `\b([A-Z][a-zA-Z]+)\s+passport\b` (case-sensitive) at one
position: returns group 1. -/
def passportAt (prev : Option Char) (s : Str) : Option Str :=
  if boundaryOk prev then
    match citWord? s with
    | some (w, r) =>
      if (r.takeWhile isSpaceChar).isEmpty then none
      else
        let r2 := r.dropWhile isSpaceChar
        if List.isPrefixOf (("passport").data) r2 && afterOk (r2.drop 8) then some w else none
    | none => none
  else none

/-- Leftmost match of the passport pattern. -/
def passportSearch : Option Char → Str → Option Str
  | _, [] => none
  | prev, c :: t =>
    match passportAt prev (c :: t) with
    | some w => some w
    | none => passportSearch (some c) t

/-- The apostrophe character, written by code point. -/
def apos : Char := Char.ofNat 39

/-- The alternation `(i am|i-apostrophe-m|im)` of the citizen pattern, in
source order, lowercase. -/
def iAmAlts : List Str := [("i am").data, ['i', apos, 'm'], ['i', 'm']]

/-- Continuation `\s+a\s+([A-Z][a-zA-Z]+)\s+(citizen|national)\b` of the
citizen pattern under `re.I`, applied after the matched alternation:
returns group 2 (the nationality word, original casing). -/
def citizenCont (r : Str) : Option Str :=
  if (r.takeWhile isSpaceChar).isEmpty then none
  else
    match r.dropWhile isSpaceChar with
    | [] => none
    | c :: r2 =>
      if c.toLower = 'a' then
        if (r2.takeWhile isSpaceChar).isEmpty then none
        else
          match letterWord? (r2.dropWhile isSpaceChar) with
          | some (w, r3) =>
            if (r3.takeWhile isSpaceChar).isEmpty then none
            else
              let r4 := r3.dropWhile isSpaceChar
              if (List.isPrefixOf (("citizen").data) (pyLower (r4.take 7)) && afterOk (r4.drop 7))
                 || (List.isPrefixOf (("national").data) (pyLower (r4.take 8)) && afterOk (r4.drop 8))
              then some w else none
          | none => none
      else none

/-- Attempt of `\b(i am|i-apostrophe-m|im)\s+a\s+([A-Z][a-zA-Z]+)\s+`
`(citizen|national)\b` (case-insensitive) at one position, trying the
alternatives in order with the full continuation. -/
def citizenAt (prev : Option Char) (s : Str) : Option Str :=
  if boundaryOk prev then
    iAmAlts.findSome? fun alt =>
      if pyLower (s.take alt.length) = alt then citizenCont (s.drop alt.length) else none
  else none

/-- Leftmost match of the citizen pattern. -/
def citizenSearch : Option Char → Str → Option Str
  | _, [] => none
  | prev, c :: t =>
    match citizenAt prev (c :: t) with
    | some w => some w
    | none => citizenSearch (some c) t

/-- The citizenship step of `extract_entities`: the passport pattern on the
raw input first, else the citizen/national pattern. -/
def extractCitizenship (input : Str) : Option Str :=
  match passportSearch none input with
  | some w => some w
  | none => citizenSearch none input

/-- The purpose step of `extract_entities`: plain-substring vocabularies
checked on the lowered cleaned text, in source order. -/
def purposeOf (cleaned : Str) : Option Str :=
  let t := pyLower cleaned
  if [("tourism").data, ("vacation").data, ("holiday").data, ("leisure").data].any
      (fun w => containsStr w t) then some (("tourism").data)
  else if [("business").data, ("meeting").data, ("conference").data].any
      (fun w => containsStr w t) then some (("business").data)
  else if [("study").data, ("student").data].any (fun w => containsStr w t) then
    some (("study").data)
  else if [("work").data, ("job").data, ("employment").data].any (fun w => containsStr w t) then
    some (("work").data)
  else none

/-- The destination step of `extract_entities`: the preposition-anchored
`_CITY_HINT` match if present, else the last `_PROPER_NOUN` capture. -/
def rawDestination (cleaned : Str) : Option Str :=
  match cityHintSearch none cleaned with
  | some d => some d
  | none => (pnFindall cleaned).getLast?

/-! ## Entity sets, session context, extraction and merge -/

/-- The per-turn entity mapping built by `extract_entities`
(`interests` is a list; every other slot is an optional string). -/
structure Entities where
  destination : Option Str
  duration : Option Str
  budget : Option Str
  interests : List Str
  travel_dates : Option Str
  accommodation_type : Option Str
  citizenship : Option Str
  purpose : Option Str
deriving DecidableEq

/-- The slots of `ConversationManager.context` read back by
`extract_entities` as prior context. -/
structure Ctx where
  destination : Option Str := none
  duration : Option Str := none
  budget : Option Str := none
  citizenship : Option Str := none
  purpose : Option Str := none
  interests : List Str := []
deriving DecidableEq

/-- Python truthiness of an optional string slot: present and nonempty. -/
def truthyO : Option Str → Bool
  | none => false
  | some s => !s.isEmpty

/-- The context-reuse step of `extract_entities`:
`if not entities.get(key) and self.context.get(key): entities[key] = ...`. -/
def ctxFallback (cur ctxv : Option Str) : Option Str :=
  if !truthyO cur && truthyO ctxv then ctxv else cur

/-- `ConversationManager.extract_entities`: strip leading question words,
run the independent slot extractors on the cleaned text (citizenship on the
raw input, per the source), and fill missing slots from prior context. -/
def extract_entities (user_input : Str) (ctx : Ctx) : Entities :=
  let cleaned := stripLeadingQuestionWords user_input
  let interests := interestsVocab.filter fun w => hasWordCI w cleaned
  { destination := ctxFallback (rawDestination cleaned) ctx.destination
    duration := ctxFallback (extractDuration cleaned) ctx.duration
    budget := ctxFallback (budgetSearch cleaned) ctx.budget
    interests := if interests.isEmpty && !ctx.interests.isEmpty then ctx.interests else interests
    travel_dates := none
    accommodation_type := accTypes.find? fun t => hasWordSCI t cleaned
    citizenship := ctxFallback (extractCitizenship user_input) ctx.citizenship
    purpose := ctxFallback (purposeOf cleaned) ctx.purpose }

/-- The session state owned by `ConversationManager`: the entity slots of
`self.context`, the topic fields, the accommodation sticky flag and the
turn history. -/
structure Session where
  slots_destination : Option Str := none
  slots_duration : Option Str := none
  slots_budget : Option Str := none
  slots_interests : List Str := []
  slots_travel_dates : Option Str := none
  slots_accommodation_type : Option Str := none
  slots_citizenship : Option Str := none
  slots_purpose : Option Str := none
  current_topic : Option QueryType := none
  previous_topic : Option QueryType := none
  accommodation_intent : Bool := false
  last_accommodation_query : Option Str := none
  history : List (Str × QueryType × Entities) := []
deriving DecidableEq

/-- `ConversationManager.update_context`: remember the previous topic, set
the current topic, merge every truthy extracted entity over the stored slot
(last write wins), set the accommodation sticky flag, append the turn to
the history. -/
def update_context (s : Session) (user_input : Str) (qt : QueryType) (e : Entities) : Session :=
  let s1 :=
    match s.current_topic with
    | some prev => { s with previous_topic := some prev }
    | none => s
  let s2 := { s1 with current_topic := some qt }
  let s3 := { s2 with
    slots_destination := if truthyO e.destination then e.destination else s2.slots_destination
    slots_duration := if truthyO e.duration then e.duration else s2.slots_duration
    slots_budget := if truthyO e.budget then e.budget else s2.slots_budget
    slots_interests := if !e.interests.isEmpty then e.interests else s2.slots_interests
    slots_travel_dates := if truthyO e.travel_dates then e.travel_dates else s2.slots_travel_dates
    slots_accommodation_type :=
      if truthyO e.accommodation_type then e.accommodation_type else s2.slots_accommodation_type
    slots_citizenship := if truthyO e.citizenship then e.citizenship else s2.slots_citizenship
    slots_purpose := if truthyO e.purpose then e.purpose else s2.slots_purpose }
  let s4 :=
    if qt = QueryType.ACCOMMODATION then
      { s3 with accommodation_intent := true, last_accommodation_query := some user_input }
    else s3
  { s4 with history := s4.history ++ [(user_input, qt, e)] }

/-- `TravelAssistant.needs_clarification`: the clarification gate of
`core/assistant.py` (both variants of the file are identical). -/
def needs_clarification (qt : QueryType) (e : Entities) : Bool :=
  if qt = QueryType.DESTINATION && e.interests.isEmpty && !truthyO e.destination then true
  else if qt = QueryType.PACKING && !truthyO e.destination then true
  else if qt = QueryType.ATTRACTIONS && !truthyO e.destination then true
  else false

/-! ## Temporal resolver (`core/flow/temporal_resolver.py`) -/

/-- Match of `(day|days|week|weeks)\b` (case-insensitive) at the head of
`r`; the failing trailing boundary after the singular makes the alternation
take the plural.  Returns whether the unit is a week unit. -/
def unitDW (r : Str) : Option Bool :=
  let l := pyLower (r.take 5)
  if List.isPrefixOf (("days").data) l && afterOk (r.drop 4) then some false
  else if List.isPrefixOf (("day").data) l && afterOk (r.drop 3) then some false
  else if List.isPrefixOf (("weeks").data) l && afterOk (r.drop 5) then some true
  else if List.isPrefixOf (("week").data) l && afterOk (r.drop 4) then some true
  else none

/-- Match of `(day|days|night|nights|week|weeks)\b` (case-insensitive) at
the head of `r`.  Nights count as days (only week units scale by 7). -/
def unitDNW (r : Str) : Option Bool :=
  let l := pyLower (r.take 6)
  if List.isPrefixOf (("days").data) l && afterOk (r.drop 4) then some false
  else if List.isPrefixOf (("day").data) l && afterOk (r.drop 3) then some false
  else if List.isPrefixOf (("nights").data) l && afterOk (r.drop 6) then some false
  else if List.isPrefixOf (("night").data) l && afterOk (r.drop 5) then some false
  else if List.isPrefixOf (("weeks").data) l && afterOk (r.drop 5) then some true
  else if List.isPrefixOf (("week").data) l && afterOk (r.drop 4) then some true
  else none

/-- Attempt of `\bin\s+(\d+)\s+(day|days|week|weeks)\b` (case-insensitive)
at one position, returning `qty * (7 if week else 1)` as in
`TemporalResolver._extract_relative_days`. -/
def relDaysAt (prev : Option Char) (s : Str) : Option Nat :=
  if boundaryOk prev && List.isPrefixOf (("in").data) (pyLower (s.take 2)) then
    let r := s.drop 2
    if (r.takeWhile isSpaceChar).isEmpty then none
    else
      let r1 := r.dropWhile isSpaceChar
      let ds := r1.takeWhile isDigitChar
      if ds.isEmpty then none
      else
        let r2 := r1.dropWhile isDigitChar
        if (r2.takeWhile isSpaceChar).isEmpty then none
        else
          match unitDW (r2.dropWhile isSpaceChar) with
          | some isWeek => some (digitsToNat ds * (if isWeek then 7 else 1))
          | none => none
  else none

/-- Leftmost match of the relative-offset pattern. -/
def relDaysFind : Option Char → Str → Option Nat
  | _, [] => none
  | prev, c :: t =>
    match relDaysAt prev (c :: t) with
    | some n => some n
    | none => relDaysFind (some c) t

/-- Attempt of `\b(\d+)\s+(day|days|night|nights|week|weeks)\b`
(case-insensitive) at one position, as in
`TemporalResolver._extract_duration_days`. -/
def durDaysAt (prev : Option Char) (s : Str) : Option Nat :=
  if boundaryOk prev then
    let ds := s.takeWhile isDigitChar
    if ds.isEmpty then none
    else
      let r := s.dropWhile isDigitChar
      if (r.takeWhile isSpaceChar).isEmpty then none
      else
        match unitDNW (r.dropWhile isSpaceChar) with
        | some isWeek => some (digitsToNat ds * (if isWeek then 7 else 1))
        | none => none
  else none

/-- Leftmost match of the duration pattern. -/
def durDaysFind : Option Char → Str → Option Nat
  | _, [] => none
  | prev, c :: t =>
    match durDaysAt prev (c :: t) with
    | some n => some n
    | none => durDaysFind (some c) t

/-- `TemporalResolver.resolve`, with dates modelled as integer day counts
and `today` (the current date in the Asia/Jerusalem reference timezone)
passed as a parameter.  Returns `(start, end, nights)`; the Python truthy
checks make a zero offset or zero duration behave like an absent one. -/
def TemporalResolver.resolve (today : Int) (text : Str) :
    Option Int × Option Int × Option Int :=
  let relDays := relDaysFind none text
  let durDays := durDaysFind none text
  let start : Option Int :=
    match relDays with
    | some n => if n = 0 then none else some (today + Int.ofNat n)
    | none => none
  let nights : Option Int :=
    match durDays with
    | some n => if n = 0 then none else some (Int.ofNat n)
    | none => none
  let stop : Option Int :=
    match start, nights with
    | some a, some b => some (a + b)
    | _, _ => none
  (start, stop, nights)

/-! ## Budget interpreter (`core/flow/budget_interpreter.py`) -/

/-- Attempt of `\bunlimited\b|\bno\s*limit\b|\bno budget\b`
(case-insensitive) at one position. -/
def unlimitedAt (prev : Option Char) (s : Str) : Bool :=
  boundaryOk prev &&
  ((List.isPrefixOf (("unlimited").data) (pyLower (s.take 9)) && afterOk (s.drop 9))
   || (List.isPrefixOf (("no").data) (pyLower (s.take 2)) &&
       (let r := s.drop 2
        let r2 := r.dropWhile isSpaceChar
        List.isPrefixOf (("limit").data) (pyLower (r2.take 5)) && afterOk (r2.drop 5)))
   || (List.isPrefixOf (("no budget").data) (pyLower (s.take 9)) && afterOk (s.drop 9)))

/-- Whether the text contains an unlimited-budget cue anywhere. -/
def unlimitedCue : Option Char → Str → Bool
  | _, [] => false
  | prev, c :: t => unlimitedAt prev (c :: t) || unlimitedCue (some c) t

/-- Attempt of the price pattern
`(\$|€|£)?\s*(\d{2,5})\s*(usd|eur|gbp|dollars|euros|pounds)?\s*`
`(per\s*night|/night)?` (case-insensitive) at one position: returns the
groups the source uses — the symbol, the amount digits (at most five) and
the currency word (lowercased alternative that matched). -/
def priceAt (s : Str) : Option (Option Char × Str × Option Str) :=
  let sym : Option Char × Str :=
    match s with
    | c :: r => if c = '$' || c = '€' || c = '£' then (some c, r) else (none, s)
    | [] => (none, s)
  let s2 := sym.2.dropWhile isSpaceChar
  let ds := s2.takeWhile isDigitChar
  if ds.length < 2 then none
  else
    let amount := ds.take 5
    let s4 := (s2.drop amount.length).dropWhile isSpaceChar
    let cur := [("usd").data, ("eur").data, ("gbp").data,
                ("dollars").data, ("euros").data, ("pounds").data].findSome?
      fun w => if List.isPrefixOf w (pyLower (s4.take w.length)) then some w else none
    some (sym.1, amount, cur)

/-- Leftmost match of the price pattern. -/
def priceSearch : Str → Option (Option Char × Str × Option Str)
  | [] => none
  | c :: t =>
    match priceAt (c :: t) with
    | some r => some r
    | none => priceSearch t

/-- The result triple of `BudgetInterpreter.parse`; the float amount of
the source is integer-valued, modelled as a natural number. -/
structure BudgetResult where
  unlimited : Bool
  maxPricePerNight : Option Nat
  currency : Option Str
deriving DecidableEq

/-- The symbol-to-code mapping of `BudgetInterpreter.parse`. -/
def symCode (c : Char) : Option Str :=
  if c = '$' then some (("USD").data)
  else if c = '€' then some (("EUR").data)
  else if c = '£' then some (("GBP").data)
  else none

/-- `BudgetInterpreter.parse`: the unlimited cue short-circuits to
`(true, none, none)`; otherwise the price pattern fills amount and
currency (currency word uppercased, else mapped from the symbol). -/
def BudgetInterpreter.parse (text : Str) : BudgetResult :=
  if unlimitedCue none text then ⟨true, none, none⟩
  else
    match priceSearch text with
    | some (sym, amount, cur) =>
      let currency : Option Str :=
        match cur with
        | some w => some (pyUpper w)
        | none =>
          match sym with
          | some c => symCode c
          | none => none
      ⟨false, some (digitsToNat amount), currency⟩
    | none => ⟨false, none, none⟩

/-! ## Helper lemmas -/

theorem isDigitChar_toLower {c : Char} (h : isDigitChar c = true) : c.toLower = c := by
  simp only [isDigitChar, Bool.and_eq_true, decide_eq_true_eq] at h
  unfold Char.toLower
  rw [if_neg]
  omega

theorem isDigitChar_not_space {c : Char} (h : isDigitChar c = true) : isSpaceChar c = false := by
  simp only [isDigitChar, Bool.and_eq_true, decide_eq_true_eq] at h
  simp only [isSpaceChar, Bool.or_eq_false_iff, decide_eq_false_iff_not]
  omega

theorem truthyO_some_of_ne_nil {x : Str} (h : x ≠ []) : truthyO (some x) = true := by
  simp [truthyO, List.isEmpty_iff, h]

theorem ctxFallback_of_truthy {cur v : Option Str} (h : truthyO cur = true) :
    ctxFallback cur v = cur := by
  simp [ctxFallback, h]

theorem pnChain_cap_ne_nil {s cap rest : Str} (h : pnChain s = some (cap, rest)) :
    cap ≠ [] := by
  unfold pnChain at h
  cases h0 : capWord? s with
  | none => rw [h0] at h; simp at h
  | some pr =>
    obtain ⟨w0, r0⟩ := pr
    have hw0 : w0 ≠ [] := capWord_ne_nil h0
    rw [h0] at h
    simp only [] at h
    split at h
    · simp only [Option.some.injEq, Prod.mk.injEq] at h
      obtain ⟨h1, _⟩ := h
      subst h1
      simp [hw0]
    · split at h
      · simp at h
      · simp only [Option.some.injEq, Prod.mk.injEq] at h
        obtain ⟨h1, _⟩ := h
        subst h1
        simp [hw0]

theorem pnFindallAux_mem_ne_nil :
    ∀ (fuel : Nat) (prev : Option Char) (s x : Str),
      x ∈ pnFindallAux fuel prev s → x ≠ [] := by
  intro fuel
  induction fuel with
  | zero => intro prev s x hx; simp [pnFindallAux] at hx
  | succ n ih =>
    intro prev s x hx
    cases s with
    | nil => simp [pnFindallAux] at hx
    | cons c t =>
      simp only [pnFindallAux] at hx
      split at hx
      · cases hc : pnChain (c :: t) with
        | none => rw [hc] at hx; exact ih _ _ _ hx
        | some pr =>
          obtain ⟨cap, rest⟩ := pr
          rw [hc] at hx
          simp only [List.mem_cons] at hx
          rcases hx with hx | hx
          · subst hx; exact pnChain_cap_ne_nil hc
          · exact ih _ _ _ hx
      · exact ih _ _ _ hx

theorem ciPrefixSplit_head_ne {p0 c : Char} {ps t : Str}
    (h : c.toLower ≠ p0) : ciPrefixSplit (p0 :: ps) (c :: t) = none := by
  unfold ciPrefixSplit
  rw [if_neg]
  intro hEq
  simp only [List.length_cons, List.take_succ_cons, pyLower, List.map_cons,
    List.cons.injEq] at hEq
  exact h hEq.1

set_option maxHeartbeats 1000000 in
theorem budgetAt_digit {c : Char} (t : Str) (h : isDigitChar c = true) :
    (budgetAt (c :: t)).isSome = true := by
  have hlow := isDigitChar_toLower h
  have hne : ∀ p0 : Char, isDigitChar p0 = false → c.toLower ≠ p0 := by
    intro p0 hp0 hEq
    rw [hlow] at hEq
    subst hEq
    rw [h] at hp0
    exact Bool.noConfusion hp0
  have hb : ciPrefixSplit (("budget").data) (c :: t) = none := by
    have hx : ("budget").data = 'b' :: ("udget").data := rfl
    rw [hx]
    exact ciPrefixSplit_head_ne (hne 'b' (by decide))
  have hu : ciPrefixSplit (("up to").data) (c :: t) = none := by
    have hx : ("up to").data = 'u' :: ("p to").data := rfl
    rw [hx]
    exact ciPrefixSplit_head_ne (hne 'u' (by decide))
  have ha : ciPrefixSplit (("around").data) (c :: t) = none := by
    have hx : ("around").data = 'a' :: ("round").data := rfl
    rw [hx]
    exact ciPrefixSplit_head_ne (hne 'a' (by decide))
  have hlead : firstCI [("budget").data, ("up to").data, ("around").data] (c :: t) = none := by
    simp [firstCI, List.findSome?_cons, hb, hu, ha]
  have hd : ∀ d : Char, isDigitChar d = false → ¬(c = d) := by
    intro d hd0 hEq
    subst hEq
    rw [h] at hd0
    exact Bool.noConfusion hd0
  have hsp := isDigitChar_not_space h
  have hdrop : List.dropWhile isSpaceChar (c :: t) = c :: t := by
    rw [List.dropWhile_cons, hsp]
    simp
  have htake : List.takeWhile isDigitChar (c :: t) = c :: t.takeWhile isDigitChar := by
    rw [List.takeWhile_cons, h]
    simp
  have hnum : (numPart (c :: t)).isSome = true := by
    unfold numPart
    rw [htake]
    simp
  have hceq1 : (c = '$') = False := eq_false (hd '$' (by decide))
  have hceq2 : (c = '€') = False := eq_false (hd '€' (by decide))
  have hceq3 : (c = '£') = False := eq_false (hd '£' (by decide))
  unfold budgetAt
  rw [hlead]
  simp only [hceq1, hceq2, hceq3, decide_False, Bool.or_false, Bool.false_or, if_false,
    spacesSplit, hdrop]
  obtain ⟨pr, hpr⟩ := Option.isSome_iff_exists.mp hnum
  obtain ⟨num, s4⟩ := pr
  simp only [Bool.false_eq_true, if_false, hdrop, hpr]
  simp

theorem budgetSearch_cons (c : Char) (t : Str) :
    budgetSearch (c :: t) =
      match budgetAt (c :: t) with
      | some g => some g
      | none => budgetSearch t := rfl

theorem budgetSearch_of_digit {s : Str} (h : s.any isDigitChar = true) :
    (budgetSearch s).isSome = true := by
  induction s with
  | nil => simp at h
  | cons c t ih =>
    cases hb : budgetAt (c :: t) with
    | some g => rw [budgetSearch_cons, hb]; rfl
    | none =>
      rw [budgetSearch_cons, hb]
      have hc : isDigitChar c = true ∨ t.any isDigitChar = true := by
        simpa using h
      rcases hc with hc | ht
      · have hs := budgetAt_digit t hc
        rw [hb] at hs
        simp at hs
      · exact ih ht

theorem update_context_slots_destination_of_truthy (s : Session) (u : Str)
    (qt : QueryType) (e : Entities) (h : truthyO e.destination = true) :
    (update_context s u qt e).slots_destination = e.destination := by
  unfold update_context
  cases s.current_topic <;> by_cases hq : qt = QueryType.ACCOMMODATION <;> simp [hq, h]

theorem update_context_history_append (s : Session) (u : Str)
    (qt : QueryType) (e : Entities) :
    (update_context s u qt e).history = s.history ++ [(u, qt, e)] := by
  unfold update_context
  cases s.current_topic <;> by_cases hq : qt = QueryType.ACCOMMODATION <;> simp [hq]

/-! ## Claim theorems -/

/-- C9: for every input text and every prior session context,
`extract_entities` returns an entity set whose `travel_dates` slot is null:
the slot is initialized to null, no extraction step assigns it, and the
context-fallback step does not copy it. -/
theorem C9_travel_dates_never_set (s : Str) (ctx : Ctx) :
    (extract_entities s ctx).travel_dates = none := rfl

/-- C2, counterexample: an entity set with a destination present but no
duration does not trigger packing clarification, refuting the claimed
"destination absent OR duration absent" condition at this input. -/
theorem C2_cex_packing_ignores_missing_duration :
    needs_clarification QueryType.PACKING
        ⟨some (("Paris").data), none, none, [], none, none, none, none⟩ = false
    ∧ (⟨some (("Paris").data), none, none, [], none, none, none, none⟩ : Entities).duration
        = none := by
  constructor
  · decide
  · rfl

/-- C2, amended: `needs_clarification(PACKING, e)` is true exactly when the
destination slot of `e` is absent (falsy); the duration slot is not
consulted. -/
theorem C2_amended_packing_iff_destination_absent (e : Entities) :
    needs_clarification QueryType.PACKING e = !truthyO e.destination := by
  cases h : truthyO e.destination <;> simp [needs_clarification, h]

/-- C3, counterexample: an entity set with no destination anywhere does not
trigger accommodation clarification, refuting the claimed
"true iff destination absent" rule at this input. -/
theorem C3_cex_accommodation_no_gate :
    needs_clarification QueryType.ACCOMMODATION
        ⟨none, none, none, [], none, none, none, none⟩ = false := by
  decide

/-- C3, amended: `needs_clarification(ACCOMMODATION, e)` is false for every
entity set: the source has no accommodation clause at all. -/
theorem C3_amended_accommodation_never_gates (e : Entities) :
    needs_clarification QueryType.ACCOMMODATION e = false := by
  simp [needs_clarification]

/-- C8: merging is last-write-wins — after two sequential `update_context`
calls whose extracted entities carry destination "Rome" and then "Milan",
the session destination slot equals "Milan", and the overwritten value
survives only in the appended turn history. -/
theorem C8_merge_last_write_wins (s : Session) (u1 u2 : Str) (qt1 qt2 : QueryType)
    (e1 e2 : Entities) (_h1 : e1.destination = some (("Rome").data))
    (h2 : e2.destination = some (("Milan").data)) :
    (update_context (update_context s u1 qt1 e1) u2 qt2 e2).slots_destination
        = some (("Milan").data)
    ∧ (update_context (update_context s u1 qt1 e1) u2 qt2 e2).history
        = s.history ++ [(u1, qt1, e1), (u2, qt2, e2)] := by
  constructor
  · rw [update_context_slots_destination_of_truthy _ _ _ _ (by rw [h2]; rfl), h2]
  · rw [update_context_history_append, update_context_history_append]
    simp

/-- C8, witness: the merge theorem evaluated on a fresh session and two
concrete turns. -/
theorem C8_witness_rome_milan :
    (update_context (update_context {} (("off to Rome").data) QueryType.GENERAL
          ⟨some (("Rome").data), none, none, [], none, none, none, none⟩)
        (("make it Milan").data) QueryType.GENERAL
          ⟨some (("Milan").data), none, none, [], none, none, none, none⟩).slots_destination
      = some (("Milan").data) :=
  (C8_merge_last_write_wins {} (("off to Rome").data) (("make it Milan").data)
    QueryType.GENERAL QueryType.GENERAL
    ⟨some (("Rome").data), none, none, [], none, none, none, none⟩
    ⟨some (("Milan").data), none, none, [], none, none, none, none⟩ rfl rfl).1

/-- C7: an unlimited-budget cue makes `BudgetInterpreter.parse` return
`(true, none, none)` regardless of any numeric match in the text. -/
theorem C7_unlimited_precedence (t : Str) (h : unlimitedCue none t = true) :
    BudgetInterpreter.parse t = ⟨true, none, none⟩ := by
  simp [BudgetInterpreter.parse, h]

/-- C7, witness: `parse("unlimited budget, maybe around $500")` returns
`(true, none, none)` although `$500` also matches the price pattern. -/
theorem C7_witness_unlimited_500 :
    unlimitedCue none (("unlimited budget, maybe around $500").data) = true
    ∧ BudgetInterpreter.parse (("unlimited budget, maybe around $500").data)
        = ⟨true, none, none⟩ :=
  ⟨by decide, C7_unlimited_precedence _ (by decide)⟩

/-- C1: evaluating `TemporalResolver.resolve` on
"in 2 days from now, staying for 14 days" with `today` the reference date.
The duration regex takes the leftmost number-unit match, which is the
"2 days" of the relative-offset phrase, so the code yields `nights = 2`
and `end = start + 2` — not the `nights = 14`, `end = start + 14` of the
claim. -/
theorem C1_resolve_leftmost_duration (today : Int) :
    TemporalResolver.resolve today (("in 2 days from now, staying for 14 days").data)
      = (some (today + 2), some (today + 4), some 2) := by
  have h1 : relDaysFind none (("in 2 days from now, staying for 14 days").data)
      = some 2 := by decide
  have h2 : durDaysFind none (("in 2 days from now, staying for 14 days").data)
      = some 2 := by decide
  simp only [TemporalResolver.resolve, h1, h2]
  norm_num
  omega

/-- C4: the accommodation pattern set precedes the destination-recommendation
set — any input matching a hotel pattern and a destination pattern while
matching none of the three earlier checks (itinerary, weather, visa)
classifies as `ACCOMMODATION`. -/
theorem C4_hotel_precedes_destination (s : Str)
    (hIt : itineraryCond (pyLower s) = false)
    (hW : weatherCond (pyLower s) = false)
    (hV : visaCond (pyLower s) = false)
    (_hD : destCond (pyLower s) = true)
    (hH : hotelCond (pyLower s) = true) :
    classify_query s = QueryType.ACCOMMODATION := by
  simp [classify_query, hIt, hW, hV, hH]

/-- C4, witness: `classify("where should I go, any hostel recs?")` matches
both a hotel pattern and a destination-recommendation pattern and returns
`ACCOMMODATION`. -/
theorem C4_witness_hostel_recs :
    classify_query (("where should I go, any hostel recs?").data)
      = QueryType.ACCOMMODATION :=
  C4_hotel_precedes_destination (("where should I go, any hostel recs?").data)
    (by decide) (by decide) (by decide) (by decide) (by decide)

/-- C6: the classification and extraction functions are total by
construction in this embedding (plain terminating functions on all of
`Str`); on the empty string, classification falls through every pattern
set to `GENERAL` and extraction with empty prior context yields the
all-null/empty entity set. -/
theorem C6_total_empty_string :
    classify_query (("").data) = QueryType.GENERAL
    ∧ extract_entities (("").data) {} = ⟨none, none, none, [], none, none, none, none⟩ := by
  constructor
  · decide
  · decide

/-- C5: when no destination is preposition-anchored (`_CITY_HINT` finds
nothing in the cleaned text) and the cleaned text contains at least two
capitalized token sequences, the extracted destination is the last
`_PROPER_NOUN` capture, for every prior context. -/
theorem C5_destination_fallback_last (s : Str) (ctx : Ctx)
    (h1 : cityHintSearch none (stripLeadingQuestionWords s) = none)
    (h2 : 2 ≤ (pnFindall (stripLeadingQuestionWords s)).length) :
    (extract_entities s ctx).destination
      = (pnFindall (stripLeadingQuestionWords s)).getLast? := by
  have hne : pnFindall (stripLeadingQuestionWords s) ≠ [] := by
    intro hh
    rw [hh] at h2
    simp at h2
  obtain ⟨x, hx⟩ := Option.isSome_iff_exists.mp (List.getLast?_isSome.mpr hne)
  have hxmem : x ∈ pnFindall (stripLeadingQuestionWords s) := by
    obtain ⟨ys, hys⟩ := List.getLast?_eq_some_iff.mp hx
    rw [hys]
    simp
  have hxne : x ≠ [] := pnFindallAux_mem_ne_nil _ _ _ _ hxmem
  have hdest : rawDestination (stripLeadingQuestionWords s)
      = (pnFindall (stripLeadingQuestionWords s)).getLast? := by
    unfold rawDestination
    rw [h1]
  show ctxFallback (rawDestination (stripLeadingQuestionWords s)) ctx.destination
      = (pnFindall (stripLeadingQuestionWords s)).getLast?
  rw [hdest, hx, ctxFallback_of_truthy (truthyO_some_of_ne_nil hxne)]

/-- C5, witness: extracting from "Tokyo vs London which is better" with
empty prior slots yields destination "London", the last capitalized
sequence. -/
theorem C5_witness_tokyo_vs_london :
    (extract_entities (("Tokyo vs London which is better").data) {}).destination
      = some (("London").data) := by
  have h := C5_destination_fallback_last (("Tokyo vs London which is better").data) {}
    (by decide) (by decide)
  rw [h]
  decide

/-- C10: whenever the cleaned text contains a decimal digit, the budget
regex matches (every non-numeric part of it is optional), so the budget
slot of the extracted entity set is non-null. -/
theorem C10_digit_implies_budget (s : Str) (ctx : Ctx)
    (h : (stripLeadingQuestionWords s).any isDigitChar = true) :
    (extract_entities s ctx).budget ≠ none := by
  obtain ⟨g, hg⟩ := Option.isSome_iff_exists.mp (budgetSearch_of_digit h)
  show ctxFallback (budgetSearch (stripLeadingQuestionWords s)) ctx.budget ≠ none
  rw [hg]
  unfold ctxFallback
  split
  · rename_i hcond
    cases hcb : ctx.budget with
    | none =>
      rw [hcb] at hcond
      simp [truthyO] at hcond
    | some v => exact Option.some_ne_none v
  · exact Option.some_ne_none g

/-- C10, witness: the bare "5" of "5 days in Rome" is a digit in the
cleaned text, so the budget slot is populated although the number denotes
a duration. -/
theorem C10_witness_five_days_rome :
    (stripLeadingQuestionWords (("5 days in Rome").data)).any isDigitChar = true
    ∧ (extract_entities (("5 days in Rome").data) {}).budget ≠ none :=
  ⟨by decide, C10_digit_implies_budget (("5 days in Rome").data) {} (by decide)⟩
